import Mathlib

/-!
Verification of the campaign analytics aggregation and CTR computation of
the advertiseMedia backend.  The JavaScript code paths that touch the
analytics subdocument are embedded shallowly: ordinary numbers become
rationals, NaN is tracked explicitly because the typeof and comparison
checks in the handler let it through, and the handlers become pure
functions from the stored analytics and the request values to the new
stored analytics and the HTTP-level outcome.
-/

namespace AdvertiseMedia

/-- A JavaScript number as it occurs on the analytics code paths: either an
ordinary numeric value (modelled as a rational) or NaN.  Infinities never
arise here because every division in the source is guarded by a strict
positivity test on the divisor. -/
inductive JSNum where
  | nan : JSNum
  | num : ℚ → JSNum
deriving DecidableEq

/-- JavaScript addition on numbers: NaN propagates. -/
def JSNum.add : JSNum → JSNum → JSNum
  | JSNum.num a, JSNum.num b => JSNum.num (a + b)
  | _, _ => JSNum.nan

/-- JavaScript multiplication on numbers: NaN propagates. -/
def JSNum.mul : JSNum → JSNum → JSNum
  | JSNum.num a, JSNum.num b => JSNum.num (a * b)
  | _, _ => JSNum.nan

/-- JavaScript division on numbers: NaN propagates.  Every division in the
source is dominated by a strict positivity check on the divisor, so the
divisor is never 0 on a reachable path and the infinite results of a real
JavaScript division by zero do not need a representation. -/
def JSNum.div : JSNum → JSNum → JSNum
  | JSNum.num a, JSNum.num b => JSNum.num (a / b)
  | _, _ => JSNum.nan

/-- JavaScript strict less-than: any comparison involving NaN is false. -/
def JSNum.lt : JSNum → JSNum → Bool
  | JSNum.num a, JSNum.num b => decide (a < b)
  | _, _ => false

/-- JavaScript strict greater-than: any comparison involving NaN is false. -/
def JSNum.gt : JSNum → JSNum → Bool
  | JSNum.num a, JSNum.num b => decide (b < a)
  | _, _ => false

/-- JavaScript less-than-or-equal: any comparison involving NaN is false. -/
def JSNum.le : JSNum → JSNum → Bool
  | JSNum.num a, JSNum.num b => decide (a ≤ b)
  | _, _ => false

/-- The source pattern (x || 0) applied to a number-typed field: NaN is
falsy and collapses to 0; every other number is returned unchanged (0 is
falsy too, but 0 || 0 is again 0). -/
def JSNum.orFalsyZero : JSNum → JSNum
  | JSNum.nan => JSNum.num 0
  | JSNum.num q => JSNum.num q

/-- The rational value carried by a number after the (x || 0) coercion. -/
def JSNum.valOrZero : JSNum → ℚ
  | JSNum.nan => 0
  | JSNum.num q => q

/-- Number.prototype.toFixed(2), modelled by the numeric value of the
produced string: round to two decimal places with ties toward the larger
value; NaN formats to the string NaN, kept here as NaN. -/
def JSNum.toFixed2 : JSNum → JSNum
  | JSNum.nan => JSNum.nan
  | JSNum.num q => JSNum.num ((⌊q * 100 + 1 / 2⌋ : ℚ) / 100)

/-- A request-body value as seen by the typeof validation of the handler: a
number (possibly NaN), or any value whose typeof is not number. -/
inductive JSVal where
  | num : JSNum → JSVal
  | nonNumber : JSVal
deriving DecidableEq

/-- The analytics subdocument of campaignSchema
(src/src/models/Campaign.js, fields impressions, clicks, ctr). -/
structure Analytics where
  impressions : JSNum
  clicks : JSNum
  ctr : JSNum
deriving DecidableEq

/-- The schema defaults for the analytics subdocument: all three fields
default to 0 (Campaign.js lines 43 to 56). -/
def campaignSchemaDefaultAnalytics : Analytics :=
  { impressions := JSNum.num 0, clicks := JSNum.num 0, ctr := JSNum.num 0 }

/-- The pre-save hook of campaignSchema (Campaign.js lines 62 to 67): when
impressions > 0 it overwrites ctr with clicks / impressions * 100;
otherwise it leaves the document untouched. -/
def preSave (a : Analytics) : Analytics :=
  if JSNum.gt a.impressions (JSNum.num 0) then
    { a with ctr := JSNum.mul (JSNum.div a.clicks a.impressions) (JSNum.num 100) }
  else a

/-- createCampaign (controller lines 42 to 70) passes no analytics to
Campaign.create, so the stored analytics is the schema default, run through
the pre-save hook by the save that Campaign.create performs. -/
def createCampaignAnalytics : Analytics :=
  preSave campaignSchemaDefaultAnalytics

/-- The JSON payload of a successful analytics update response: the object
literal in the handler has exactly the fields impressions, clicks and ctr,
the last produced with toFixed(2). -/
structure AnalyticsResponse where
  impressions : JSNum
  clicks : JSNum
  ctr : JSNum
deriving DecidableEq

/-- Outcome of the updateCampaignAnalytics handler on its pure paths: a 400
for invalid input, a 400 for an invariant violation, or the success
payload.  The 404 and 500 paths concern the storage collaborator and stay
outside the computational model. -/
inductive UpdateOutcome where
  | invalidInput : UpdateOutcome
  | invariantViolation : UpdateOutcome
  | success : AnalyticsResponse → UpdateOutcome
deriving DecidableEq

/-- The updateCampaignAnalytics handler (controller lines 253 to 306),
restricted to its computational content.  It returns the analytics stored
after the call together with the outcome; on every rejection the stored
analytics is the unchanged current value, mirroring the early returns that
precede the mutation and the save.  The checks appear in source order:
typeof on both request values, then negativity on both, then the
newClicks > newImpressions test on the incremented counters; the counters
are read through the (x || 0) coercion, the ctr is recomputed from the new
counters, and the save runs the pre-save hook before the response is built
from the saved document. -/
def updateCampaignAnalytics (current : Analytics) (impressions clicks : JSVal) :
    Analytics × UpdateOutcome :=
  match impressions, clicks with
  | JSVal.num i, JSVal.num c =>
    if JSNum.lt i (JSNum.num 0) || JSNum.lt c (JSNum.num 0) then
      (current, UpdateOutcome.invalidInput)
    else
      let newImpressions := JSNum.add (JSNum.orFalsyZero current.impressions) i
      let newClicks := JSNum.add (JSNum.orFalsyZero current.clicks) c
      if JSNum.gt newClicks newImpressions then
        (current, UpdateOutcome.invariantViolation)
      else
        let ctr := if JSNum.gt newImpressions (JSNum.num 0) then
            JSNum.mul (JSNum.div newClicks newImpressions) (JSNum.num 100)
          else JSNum.num 0
        let saved := preSave { impressions := newImpressions, clicks := newClicks, ctr := ctr }
        (saved, UpdateOutcome.success
          { impressions := saved.impressions, clicks := saved.clicks,
            ctr := JSNum.toFixed2 saved.ctr })
  | _, _ => (current, UpdateOutcome.invalidInput)

/-- The updateCampaignDetails handler (controller lines 309 to 328): it
passes req.body straight to findByIdAndUpdate with no validation; an
analytics object in the body replaces the stored analytics wholesale, and
a mongoose update query does not run the pre-save hook. -/
def updateCampaignDetails (current : Analytics) (bodyAnalytics : Option Analytics) :
    Analytics :=
  match bodyAnalytics with
  | some a => a
  | none => current

/-- getDashboardStats (controller lines 163 to 164): reduce of the
impressions of the owned campaigns, with initial accumulator 0. -/
def totalImpressions (campaigns : List Analytics) : JSNum :=
  campaigns.foldl (fun sum c => JSNum.add sum c.impressions) (JSNum.num 0)

/-- getDashboardStats (controller lines 166 to 167): reduce of the clicks
of the owned campaigns, with initial accumulator 0. -/
def totalClicks (campaigns : List Analytics) : JSNum :=
  campaigns.foldl (fun sum c => JSNum.add sum c.clicks) (JSNum.num 0)

/-- getDashboardStats (controller lines 169 to 171): the overall CTR is
computed from the pooled totals, not from the per-campaign ctr values. -/
def overallCTR (campaigns : List Analytics) : JSNum :=
  if JSNum.gt (totalImpressions campaigns) (JSNum.num 0) then
    JSNum.mul (JSNum.div (totalClicks campaigns) (totalImpressions campaigns)) (JSNum.num 100)
  else JSNum.num 0

/-- The spec operation recompute(impressions, clicks), written from the
words of spec section 4.1: the derived ctr is clicks / impressions * 100
when impressions > 0 and 0 otherwise.  This is also the re-derived ctr
value that the invariant of spec section 3 refers to. -/
def recomputeSpec (impressions clicks : JSNum) : JSNum :=
  if JSNum.gt impressions (JSNum.num 0) then
    JSNum.mul (JSNum.div clicks impressions) (JSNum.num 100)
  else JSNum.num 0

/-- A campaign analytics value with ordinary (non-NaN) numeric fields,
given as (impressions, clicks, ctr). -/
def mkAnalytics (t : ℚ × ℚ × ℚ) : Analytics :=
  { impressions := JSNum.num t.1, clicks := JSNum.num t.2.1, ctr := JSNum.num t.2.2 }

/-- The pooled click-through rate over a list of campaigns, written from
the words of the claim: total clicks over total impressions times 100 when
the summed impressions are positive, else 0. -/
def pooledCTRSpec (l : List (ℚ × ℚ × ℚ)) : ℚ :=
  if 0 < (l.map fun t => t.1).sum then
    (l.map fun t => t.2.1).sum / (l.map fun t => t.1).sum * 100
  else 0

/-- The arithmetic mean of the per-campaign ctr values, the formula the
claim about getDashboardStats rules out. -/
def averageCTRSpec (l : List (ℚ × ℚ × ℚ)) : ℚ :=
  (l.map fun t => t.2.2).sum / l.length

/-- The data-model invariant of spec section 3 on a stored analytics value:
clicks is at most impressions under the JavaScript comparison, and ctr
equals the value re-derived from clicks and impressions.  The JavaScript
comparison returning true forces both counters to be actual numbers. -/
def AnalyticsInvariant (a : Analytics) : Prop :=
  JSNum.le a.clicks a.impressions = true ∧
    a.ctr = recomputeSpec a.impressions a.clicks

/-- Analytics states reachable through campaign creation followed by any
number of successful updateCampaignAnalytics calls with ordinary (non-NaN)
numeric increments. -/
inductive ReachableAnalytics : Analytics → Prop where
  | create : ReachableAnalytics createCampaignAnalytics
  | update (s s2 : Analytics) (a b : ℚ) (r : AnalyticsResponse) :
      ReachableAnalytics s →
      updateCampaignAnalytics s (JSVal.num (JSNum.num a)) (JSVal.num (JSNum.num b)) =
        (s2, UpdateOutcome.success r) →
      ReachableAnalytics s2

/-- The ctr stored by a successful increment that leaves the counters at
qi impressions and qc clicks. -/
def incCtr (qi qc : ℚ) : ℚ := if 0 < qi then qc / qi * 100 else 0

/-- The analytics stored by a successful increment ending at the counters
(qi, qc). -/
def incState (qi qc : ℚ) : Analytics :=
  { impressions := JSNum.num qi, clicks := JSNum.num qc, ctr := JSNum.num (incCtr qi qc) }

/-- The response payload of a successful increment ending at the counters
(qi, qc). -/
def incResp (qi qc : ℚ) : AnalyticsResponse :=
  { impressions := JSNum.num qi, clicks := JSNum.num qc,
    ctr := JSNum.toFixed2 (JSNum.num (incCtr qi qc)) }

lemma orFalsyZero_eq (n : JSNum) : JSNum.orFalsyZero n = JSNum.num n.valOrZero := by
  cases n <;> rfl

lemma preSave_num (qi qc qr : ℚ) :
    preSave { impressions := JSNum.num qi, clicks := JSNum.num qc, ctr := JSNum.num qr } =
      if 0 < qi then
        { impressions := JSNum.num qi, clicks := JSNum.num qc,
          ctr := JSNum.num (qc / qi * 100) }
      else { impressions := JSNum.num qi, clicks := JSNum.num qc, ctr := JSNum.num qr } := by
  simp only [preSave, JSNum.gt, JSNum.mul, JSNum.div, decide_eq_true_eq]

lemma preSave_incCtr (qi qc : ℚ) :
    preSave { impressions := JSNum.num qi, clicks := JSNum.num qc,
              ctr := if 0 < qi then JSNum.num (qc / qi * 100) else JSNum.num 0 } =
      incState qi qc := by
  by_cases h : 0 < qi
  · rw [if_pos h, preSave_num, if_pos h]
    simp [incState, incCtr, h]
  · rw [if_neg h, preSave_num, if_neg h]
    simp [incState, incCtr, h]

/-- Normal form of the handler on numeric (possibly NaN-free) request
values: everything is decided by the rational values of the counters after
the (x || 0) coercion. -/
lemma updateCampaignAnalytics_num_eq (s : Analytics) (a b : ℚ) :
    updateCampaignAnalytics s (JSVal.num (JSNum.num a)) (JSVal.num (JSNum.num b)) =
      if a < 0 ∨ b < 0 then (s, UpdateOutcome.invalidInput)
      else if s.impressions.valOrZero + a < s.clicks.valOrZero + b then
        (s, UpdateOutcome.invariantViolation)
      else
        (incState (s.impressions.valOrZero + a) (s.clicks.valOrZero + b),
          UpdateOutcome.success
            (incResp (s.impressions.valOrZero + a) (s.clicks.valOrZero + b))) := by
  simp only [updateCampaignAnalytics, orFalsyZero_eq, JSNum.add, JSNum.lt, JSNum.gt,
    Bool.or_eq_true, decide_eq_true_eq]
  by_cases hab : a < 0 ∨ b < 0
  · simp [hab]
  · rw [if_neg hab, if_neg hab]
    by_cases hinv : s.impressions.valOrZero + a < s.clicks.valOrZero + b
    · simp [hinv]
    · rw [if_neg hinv, if_neg hinv]
      simp only [JSNum.mul, JSNum.div]
      rw [preSave_incCtr]
      simp [incState, incResp, incCtr]

/-- The document stored by a successful update, before any normalization:
the incremented counters with the recomputed ctr, run through the pre-save
hook. -/
def incSaved (current : Analytics) (x y : JSNum) : Analytics :=
  preSave
    { impressions := JSNum.add (JSNum.orFalsyZero current.impressions) x,
      clicks := JSNum.add (JSNum.orFalsyZero current.clicks) y,
      ctr :=
        if JSNum.gt (JSNum.add (JSNum.orFalsyZero current.impressions) x) (JSNum.num 0) then
          JSNum.mul
            (JSNum.div (JSNum.add (JSNum.orFalsyZero current.clicks) y)
              (JSNum.add (JSNum.orFalsyZero current.impressions) x))
            (JSNum.num 100)
        else JSNum.num 0 }

lemma updateCampaignAnalytics_numnum (current : Analytics) (x y : JSNum) :
    updateCampaignAnalytics current (JSVal.num x) (JSVal.num y) =
      if JSNum.lt x (JSNum.num 0) || JSNum.lt y (JSNum.num 0) then
        (current, UpdateOutcome.invalidInput)
      else if JSNum.gt (JSNum.add (JSNum.orFalsyZero current.clicks) y)
          (JSNum.add (JSNum.orFalsyZero current.impressions) x) then
        (current, UpdateOutcome.invariantViolation)
      else
        (incSaved current x y,
          UpdateOutcome.success
            { impressions := (incSaved current x y).impressions,
              clicks := (incSaved current x y).clicks,
              ctr := JSNum.toFixed2 (incSaved current x y).ctr }) := rfl

/-- C8: every campaign created through the create operation stores
analytics initialized to impressions = 0, clicks = 0 and ctr = 0: the
handler passes no analytics to Campaign.create, the schema defaults all
three fields to 0, and the pre-save hook run by the create leaves them
unchanged because impressions = 0 is not positive. -/
theorem createCampaign_zero_analytics :
    createCampaignAnalytics =
      { impressions := JSNum.num 0, clicks := JSNum.num 0, ctr := JSNum.num 0 } := by
  decide

/-- C6: for the current state impressions = 100, clicks = 10 and the
increment (50, 4), the update succeeds: it stores counters 150 and 14 with
ctr 28/3, and the response reports impressions 150, clicks 14 and ctr
9.33, the numeric value of the two-decimal string. -/
theorem updateCampaignAnalytics_example_150_14 :
    updateCampaignAnalytics
        { impressions := JSNum.num 100, clicks := JSNum.num 10, ctr := JSNum.num 10 }
        (JSVal.num (JSNum.num 50)) (JSVal.num (JSNum.num 4)) =
      ({ impressions := JSNum.num 150, clicks := JSNum.num 14, ctr := JSNum.num (28 / 3) },
        UpdateOutcome.success
          { impressions := JSNum.num 150, clicks := JSNum.num 14,
            ctr := JSNum.num (933 / 100) }) := by
  rw [updateCampaignAnalytics_num_eq]
  norm_num [JSNum.valOrZero, incState, incResp, incCtr, JSNum.toFixed2]

/-- C9: NaN has typeof number and every comparison with NaN is false, so a
NaN increment passes the typeof check, the negativity check and the
invariant check, and the update proceeds.  With a NaN clicks increment the
stored clicks counter and the stored ctr are NaN; with a NaN impressions
increment the stored impressions counter is NaN (and the ctr guard, also
false on NaN, yields 0). -/
theorem updateCampaignAnalytics_accepts_nan :
    updateCampaignAnalytics
        { impressions := JSNum.num 100, clicks := JSNum.num 10, ctr := JSNum.num 10 }
        (JSVal.num (JSNum.num 50)) (JSVal.num JSNum.nan) =
      ({ impressions := JSNum.num 150, clicks := JSNum.nan, ctr := JSNum.nan },
        UpdateOutcome.success
          { impressions := JSNum.num 150, clicks := JSNum.nan, ctr := JSNum.nan }) ∧
    updateCampaignAnalytics
        { impressions := JSNum.num 100, clicks := JSNum.num 10, ctr := JSNum.num 10 }
        (JSVal.num JSNum.nan) (JSVal.num (JSNum.num 5)) =
      ({ impressions := JSNum.nan, clicks := JSNum.num 15, ctr := JSNum.num 0 },
        UpdateOutcome.success
          { impressions := JSNum.nan, clicks := JSNum.num 15, ctr := JSNum.num 0 }) := by
  constructor <;>
    norm_num [updateCampaignAnalytics_numnum, incSaved, preSave, JSNum.add, JSNum.lt,
      JSNum.gt, JSNum.mul, JSNum.div, JSNum.orFalsyZero, JSNum.toFixed2]

/-- C2 counterexample: on a save with impressions = 0 and clicks = 0 the
pre-save hook leaves a prior ctr of 5 in place instead of resetting it to
0, refuting the claim that the recompute applied on every save yields
ctr = 0 whenever impressions is 0, regardless of the prior ctr value. -/
theorem preSave_zero_impressions_keeps_ctr :
    preSave { impressions := JSNum.num 0, clicks := JSNum.num 0, ctr := JSNum.num 5 } =
      { impressions := JSNum.num 0, clicks := JSNum.num 0, ctr := JSNum.num 5 } ∧
    (preSave { impressions := JSNum.num 0, clicks := JSNum.num 0,
               ctr := JSNum.num 5 }).ctr ≠ JSNum.num 0 := by
  decide

/-- C2 amended: on every save the hook sets ctr to clicks / impressions *
100 exactly when impressions > 0, where it agrees with the spec recompute,
and leaves the document unchanged otherwise; with impressions = 0 there is
no division by zero, and the resulting ctr equals the prior ctr, hence 0
whenever the prior ctr was 0 (the updateCampaignAnalytics handler itself
writes ctr = 0 in that situation before saving). -/
theorem preSave_ctr_spec (a : Analytics) :
    (JSNum.gt a.impressions (JSNum.num 0) = true →
      preSave a = { a with ctr := recomputeSpec a.impressions a.clicks }) ∧
    (JSNum.gt a.impressions (JSNum.num 0) = false → preSave a = a) ∧
    (a.impressions = JSNum.num 0 → a.ctr = JSNum.num 0 →
      (preSave a).ctr = JSNum.num 0) := by
  refine ⟨fun h => ?_, fun h => ?_, fun h0 hc => ?_⟩
  · simp [preSave, recomputeSpec, h]
  · simp [preSave, h]
  · norm_num [preSave, h0, hc, JSNum.gt]

/-- C2 witness: the amended save behavior evaluated at a state with
positive impressions, overwriting a stale ctr with the recomputed value. -/
theorem preSave_ctr_spec_witness :
    preSave { impressions := JSNum.num 4, clicks := JSNum.num 1, ctr := JSNum.num 999 } =
      { impressions := JSNum.num 4, clicks := JSNum.num 1,
        ctr := recomputeSpec (JSNum.num 4) (JSNum.num 1) } :=
  (preSave_ctr_spec _).1 (by decide)

/-- C3: the handler validates in the source order.  A request value whose
typeof is not number is rejected as invalid input; with both values
numeric, a negative increment is rejected as invalid input (this check
precedes the invariant check, so a negative increment is reported as
invalid input even when the sums would also break the invariant); past
those checks, for a current state with numeric counters, the call is
rejected as an invariant violation exactly when the incremented clicks
exceed the incremented impressions. -/
theorem updateCampaignAnalytics_validation_order
    (current : Analytics) (qi qc : ℚ)
    (hqi : current.impressions = JSNum.num qi) (hqc : current.clicks = JSNum.num qc)
    (i c : JSVal) :
    ((i = JSVal.nonNumber ∨ c = JSVal.nonNumber) →
      updateCampaignAnalytics current i c = (current, UpdateOutcome.invalidInput)) ∧
    (∀ x y : ℚ, i = JSVal.num (JSNum.num x) → c = JSVal.num (JSNum.num y) →
      (x < 0 ∨ y < 0) →
      updateCampaignAnalytics current i c = (current, UpdateOutcome.invalidInput)) ∧
    (∀ x y : ℚ, i = JSVal.num (JSNum.num x) → c = JSVal.num (JSNum.num y) →
      ¬ (x < 0 ∨ y < 0) →
      ((updateCampaignAnalytics current i c).2 = UpdateOutcome.invariantViolation ↔
        qi + x < qc + y)) := by
  refine ⟨?_, ?_, ?_⟩
  · rintro (rfl | rfl)
    · cases c <;> rfl
    · cases i <;> rfl
  · rintro x y rfl rfl h
    rw [updateCampaignAnalytics_num_eq, if_pos h]
  · rintro x y rfl rfl h
    rw [updateCampaignAnalytics_num_eq, if_neg h, hqi, hqc]
    simp only [JSNum.valOrZero]
    by_cases hv : qi + x < qc + y
    · simp [hv]
    · simp [hv]

/-- C3 witness: with both counters numeric, the increment (-1, 0) is
rejected as invalid input, matching the spec example. -/
theorem updateCampaignAnalytics_validation_order_witness :
    updateCampaignAnalytics
        { impressions := JSNum.num 10, clicks := JSNum.num 5, ctr := JSNum.num 50 }
        (JSVal.num (JSNum.num (-1))) (JSVal.num (JSNum.num 0)) =
      ({ impressions := JSNum.num 10, clicks := JSNum.num 5, ctr := JSNum.num 50 },
        UpdateOutcome.invalidInput) :=
  (updateCampaignAnalytics_validation_order _ 10 5 rfl rfl _ _).2.1 (-1) 0 rfl rfl
    (by norm_num)

/-- C4: on every rejected input — a non-numeric value, a negative
increment, or an increment whose resulting clicks would exceed the
resulting impressions — the handler returns before mutating the record, so
the stored analytics is exactly the unchanged current value. -/
theorem updateCampaignAnalytics_rejection_preserves_state
    (current : Analytics) (i c : JSVal) :
    ((updateCampaignAnalytics current i c).2 = UpdateOutcome.invalidInput →
      (updateCampaignAnalytics current i c).1 = current) ∧
    ((updateCampaignAnalytics current i c).2 = UpdateOutcome.invariantViolation →
      (updateCampaignAnalytics current i c).1 = current) := by
  rcases i with x | _
  · rcases c with y | _
    · rw [updateCampaignAnalytics_numnum]
      constructor <;> intro h <;> split_ifs at h ⊢ <;> simp_all
    · exact ⟨fun _ => rfl, fun _ => rfl⟩
  · cases c <;> exact ⟨fun _ => rfl, fun _ => rfl⟩

/-- C4 witness: the spec example — current (10, 5) with increment (0, 20)
is rejected because 25 clicks would exceed 10 impressions, and the stored
analytics stays (10, 5, 50). -/
theorem updateCampaignAnalytics_rejection_preserves_state_witness :
    (updateCampaignAnalytics
        { impressions := JSNum.num 10, clicks := JSNum.num 5, ctr := JSNum.num 50 }
        (JSVal.num (JSNum.num 0)) (JSVal.num (JSNum.num 20))).1 =
      { impressions := JSNum.num 10, clicks := JSNum.num 5, ctr := JSNum.num 50 } :=
  (updateCampaignAnalytics_rejection_preserves_state _ _ _).2
    (by rw [updateCampaignAnalytics_num_eq]; norm_num [JSNum.valOrZero])

/-- C7: on every successful update the response payload — an object with
exactly the fields impressions, clicks and ctr — carries the newly stored
counters, and its ctr is the stored ctr formatted with two decimal places
(the save runs before the response is built, so the values are read off
the saved document). -/
theorem updateCampaignAnalytics_response_fields
    (current : Analytics) (i c : JSVal) (s : Analytics) (r : AnalyticsResponse)
    (h : updateCampaignAnalytics current i c = (s, UpdateOutcome.success r)) :
    r.impressions = s.impressions ∧ r.clicks = s.clicks ∧
      r.ctr = JSNum.toFixed2 s.ctr := by
  rcases i with x | _
  · rcases c with y | _
    · rw [updateCampaignAnalytics_numnum] at h
      split_ifs at h
      · simp at h
      · simp at h
      · simp only [Prod.mk.injEq, UpdateOutcome.success.injEq] at h
        obtain ⟨hs, hr⟩ := h
        subst hs
        rw [← hr]
        exact ⟨rfl, rfl, rfl⟩
    · simp [updateCampaignAnalytics] at h
  · cases c <;> simp [updateCampaignAnalytics] at h

/-- C7 witness: the response of a concrete successful update equals the
stored counters with the two-decimal ctr. -/
theorem updateCampaignAnalytics_response_fields_witness :
    (AnalyticsResponse.mk (JSNum.num 10) (JSNum.num 5) (JSNum.num 50)).impressions =
        (Analytics.mk (JSNum.num 10) (JSNum.num 5) (JSNum.num 50)).impressions ∧
      (AnalyticsResponse.mk (JSNum.num 10) (JSNum.num 5) (JSNum.num 50)).clicks =
        (Analytics.mk (JSNum.num 10) (JSNum.num 5) (JSNum.num 50)).clicks ∧
      (AnalyticsResponse.mk (JSNum.num 10) (JSNum.num 5) (JSNum.num 50)).ctr =
        JSNum.toFixed2 (Analytics.mk (JSNum.num 10) (JSNum.num 5) (JSNum.num 50)).ctr :=
  updateCampaignAnalytics_response_fields
    { impressions := JSNum.num 0, clicks := JSNum.num 0, ctr := JSNum.num 0 }
    (JSVal.num (JSNum.num 10)) (JSVal.num (JSNum.num 5)) _ _
    (by rw [updateCampaignAnalytics_num_eq]
        norm_num [JSNum.valOrZero, incState, incResp, incCtr, JSNum.toFixed2])

/-- C5 counterexample: a NaN increment is not rejected, yet breaks the
additivity of sequential calls.  Starting from the all-zero state, the
increment (NaN, 0) followed by (10, 0) ends at impressions 10, while the
single combined call with (NaN + 10, 0 + 0) ends at impressions NaN; no
call in either run is rejected. -/
theorem updateCampaignAnalytics_nan_breaks_additivity :
    updateCampaignAnalytics
        { impressions := JSNum.num 0, clicks := JSNum.num 0, ctr := JSNum.num 0 }
        (JSVal.num JSNum.nan) (JSVal.num (JSNum.num 0)) =
      ({ impressions := JSNum.nan, clicks := JSNum.num 0, ctr := JSNum.num 0 },
        UpdateOutcome.success
          { impressions := JSNum.nan, clicks := JSNum.num 0, ctr := JSNum.num 0 }) ∧
    updateCampaignAnalytics
        { impressions := JSNum.nan, clicks := JSNum.num 0, ctr := JSNum.num 0 }
        (JSVal.num (JSNum.num 10)) (JSVal.num (JSNum.num 0)) =
      ({ impressions := JSNum.num 10, clicks := JSNum.num 0, ctr := JSNum.num 0 },
        UpdateOutcome.success
          { impressions := JSNum.num 10, clicks := JSNum.num 0, ctr := JSNum.num 0 }) ∧
    updateCampaignAnalytics
        { impressions := JSNum.num 0, clicks := JSNum.num 0, ctr := JSNum.num 0 }
        (JSVal.num (JSNum.add JSNum.nan (JSNum.num 10)))
        (JSVal.num (JSNum.add (JSNum.num 0) (JSNum.num 0))) =
      ({ impressions := JSNum.nan, clicks := JSNum.num 0, ctr := JSNum.num 0 },
        UpdateOutcome.success
          { impressions := JSNum.nan, clicks := JSNum.num 0, ctr := JSNum.num 0 }) ∧
    ({ impressions := JSNum.num 10, clicks := JSNum.num 0, ctr := JSNum.num 0 } :
        Analytics) ≠
      { impressions := JSNum.nan, clicks := JSNum.num 0, ctr := JSNum.num 0 } := by
  refine ⟨?_, ?_, ?_, by decide⟩ <;>
    norm_num [updateCampaignAnalytics_numnum, incSaved, preSave, JSNum.add, JSNum.lt,
      JSNum.gt, JSNum.mul, JSNum.div, JSNum.orFalsyZero, JSNum.toFixed2]

/-- C5 amended: restricted to ordinary (non-NaN) numeric increments,
sequential application is additive — if the calls with (a, b) and then
(c, d) both succeed, the single call with (a + c, b + d) succeeds and
produces the same stored analytics and the same response as the second
call of the sequence. -/
theorem updateCampaignAnalytics_additive
    (s s1 s2 : Analytics) (r1 r2 : AnalyticsResponse) (a b c d : ℚ)
    (h1 : updateCampaignAnalytics s (JSVal.num (JSNum.num a)) (JSVal.num (JSNum.num b)) =
      (s1, UpdateOutcome.success r1))
    (h2 : updateCampaignAnalytics s1 (JSVal.num (JSNum.num c)) (JSVal.num (JSNum.num d)) =
      (s2, UpdateOutcome.success r2)) :
    updateCampaignAnalytics s (JSVal.num (JSNum.num (a + c)))
        (JSVal.num (JSNum.num (b + d))) =
      (s2, UpdateOutcome.success r2) := by
  rw [updateCampaignAnalytics_num_eq] at h1 h2 ⊢
  split_ifs at h1 with hab hinv1
  · simp at h1
  · simp at h1
  · simp only [Prod.mk.injEq, UpdateOutcome.success.injEq] at h1
    obtain ⟨hs1, hr1⟩ := h1
    subst hs1
    rw [show (incState (s.impressions.valOrZero + a)
          (s.clicks.valOrZero + b)).impressions.valOrZero =
        s.impressions.valOrZero + a from rfl,
      show (incState (s.impressions.valOrZero + a)
          (s.clicks.valOrZero + b)).clicks.valOrZero =
        s.clicks.valOrZero + b from rfl] at h2
    split_ifs at h2 with hcd hinv2
    · simp at h2
    · simp at h2
    · simp only [Prod.mk.injEq, UpdateOutcome.success.injEq] at h2
      obtain ⟨hs2, hr2⟩ := h2
      push_neg at hab hcd
      have hI : s.impressions.valOrZero + (a + c) =
          s.impressions.valOrZero + a + c := by ring
      have hC : s.clicks.valOrZero + (b + d) =
          s.clicks.valOrZero + b + d := by ring
      have hsum : ¬(a + c < 0 ∨ b + d < 0) := by
        push_neg
        constructor <;> linarith [hab.1, hab.2, hcd.1, hcd.2]
      rw [hI, hC, if_neg hsum, if_neg hinv2, hs2, hr2]

/-- C5 witness: on the all-zero state, the increments (10, 5) then (20,
10) compose to the single increment (30, 15), which succeeds and stores
counters 30 and 15 with ctr 50. -/
theorem updateCampaignAnalytics_additive_witness :
    updateCampaignAnalytics
        { impressions := JSNum.num 0, clicks := JSNum.num 0, ctr := JSNum.num 0 }
        (JSVal.num (JSNum.num 30)) (JSVal.num (JSNum.num 15)) =
      ({ impressions := JSNum.num 30, clicks := JSNum.num 15, ctr := JSNum.num 50 },
        UpdateOutcome.success
          { impressions := JSNum.num 30, clicks := JSNum.num 15,
            ctr := JSNum.num 50 }) := by
  have h := updateCampaignAnalytics_additive
    { impressions := JSNum.num 0, clicks := JSNum.num 0, ctr := JSNum.num 0 }
    { impressions := JSNum.num 10, clicks := JSNum.num 5, ctr := JSNum.num 50 }
    { impressions := JSNum.num 30, clicks := JSNum.num 15, ctr := JSNum.num 50 }
    { impressions := JSNum.num 10, clicks := JSNum.num 5, ctr := JSNum.num 50 }
    { impressions := JSNum.num 30, clicks := JSNum.num 15, ctr := JSNum.num 50 }
    10 5 20 10
    (by rw [updateCampaignAnalytics_num_eq]
        norm_num [JSNum.valOrZero, incState, incResp, incCtr, JSNum.toFixed2])
    (by rw [updateCampaignAnalytics_num_eq]
        norm_num [JSNum.valOrZero, incState, incResp, incCtr, JSNum.toFixed2])
  rw [show (10 : ℚ) + 20 = 30 by norm_num, show (5 : ℚ) + 10 = 15 by norm_num] at h
  exact h

/-- C1 counterexample: updateCampaignDetails forwards the request body to
findByIdAndUpdate without any validation, and a mongoose update query does
not run the pre-save hook; a single call starting from a state satisfying
the invariant can therefore store clicks greater than impressions together
with an unrelated ctr, so the invariant is not preserved by every
operation that can write the analytics field. -/
theorem updateCampaignDetails_breaks_invariant :
    AnalyticsInvariant
      { impressions := JSNum.num 10, clicks := JSNum.num 10, ctr := JSNum.num 100 } ∧
    updateCampaignDetails
        { impressions := JSNum.num 10, clicks := JSNum.num 10, ctr := JSNum.num 100 }
        (some { impressions := JSNum.num 10, clicks := JSNum.num 20, ctr := JSNum.num 7 }) =
      { impressions := JSNum.num 10, clicks := JSNum.num 20, ctr := JSNum.num 7 } ∧
    ¬ AnalyticsInvariant
      { impressions := JSNum.num 10, clicks := JSNum.num 20, ctr := JSNum.num 7 } := by
  refine ⟨⟨by decide, ?_⟩, rfl, fun h => absurd h.1 (by decide)⟩
  norm_num [recomputeSpec, JSNum.gt, JSNum.div, JSNum.mul]

lemma recomputeSpec_num (qi qc : ℚ) :
    recomputeSpec (JSNum.num qi) (JSNum.num qc) = JSNum.num (incCtr qi qc) := by
  by_cases h : 0 < qi <;>
    simp [recomputeSpec, incCtr, JSNum.gt, JSNum.mul, JSNum.div, h]

lemma num_incCtr (qi qc : ℚ) :
    JSNum.num (incCtr qi qc) =
      if 0 < qi then JSNum.num (qc / qi * 100) else JSNum.num 0 := by
  rw [incCtr]
  exact apply_ite JSNum.num (0 < qi) _ _

lemma preSave_incState (qi qc : ℚ) : preSave (incState qi qc) = incState qi qc := by
  conv_lhs => rw [incState, num_incCtr]
  rw [preSave_incCtr]

lemma incState_invariant (qi qc : ℚ) (h : qc ≤ qi) :
    AnalyticsInvariant (incState qi qc) := by
  constructor
  · simp [incState, JSNum.le, h]
  · simp [incState, recomputeSpec_num]

/-- C1 amended: every analytics state reachable through campaign creation
and successful updateCampaignAnalytics calls with ordinary (non-NaN)
numeric increments satisfies the invariant — clicks at most impressions
and ctr equal to the re-derived value — and the pre-save hook preserves
the invariant; the original claim fails because updateCampaignDetails can
also write the analytics field and performs no validation (see the
counterexample). -/
theorem analytics_invariant_reachable :
    (∀ s : Analytics, ReachableAnalytics s → AnalyticsInvariant s) ∧
    (∀ a : Analytics, AnalyticsInvariant a → AnalyticsInvariant (preSave a)) := by
  constructor
  · intro s hs
    induction hs with
    | create => exact ⟨by decide, by decide⟩
    | update s s2 a b r hs h ih =>
        rw [updateCampaignAnalytics_num_eq] at h
        split_ifs at h with hab hinv
        · simp at h
        · simp at h
        · simp only [Prod.mk.injEq, UpdateOutcome.success.injEq] at h
          obtain ⟨hs2, hr⟩ := h
          subst hs2
          exact incState_invariant _ _ (le_of_not_lt hinv)
  · rintro a ⟨hle, hctr⟩
    rcases a with ⟨imp, clk, ctr⟩
    cases imp with
    | nan => cases clk <;> simp [JSNum.le] at hle
    | num qi =>
      cases clk with
      | nan => simp [JSNum.le] at hle
      | num qc =>
        rw [recomputeSpec_num] at hctr
        dsimp only at hctr
        subst hctr
        have hs : (⟨JSNum.num qi, JSNum.num qc, JSNum.num (incCtr qi qc)⟩ : Analytics) =
            incState qi qc := rfl
        rw [hs, preSave_incState]
        exact incState_invariant _ _
          (by simpa [JSNum.le] using hle)

/-- C1 witness: the freshly created all-zero analytics state is reachable
and satisfies the invariant. -/
theorem analytics_invariant_reachable_witness :
    AnalyticsInvariant createCampaignAnalytics :=
  analytics_invariant_reachable.1 createCampaignAnalytics ReachableAnalytics.create

lemma foldl_impressions (l : List (ℚ × ℚ × ℚ)) (s : ℚ) :
    List.foldl (fun sum c => JSNum.add sum c.impressions) (JSNum.num s) (l.map mkAnalytics) =
      JSNum.num (s + (l.map fun t => t.1).sum) := by
  induction l generalizing s with
  | nil => simp
  | cons p t ih =>
      rw [List.map_cons, List.foldl_cons]
      rw [show JSNum.add (JSNum.num s) (mkAnalytics p).impressions =
          JSNum.num (s + p.1) from rfl]
      rw [ih, List.map_cons, List.sum_cons]
      exact congrArg JSNum.num (by ring)

lemma foldl_clicks (l : List (ℚ × ℚ × ℚ)) (s : ℚ) :
    List.foldl (fun sum c => JSNum.add sum c.clicks) (JSNum.num s) (l.map mkAnalytics) =
      JSNum.num (s + (l.map fun t => t.2.1).sum) := by
  induction l generalizing s with
  | nil => simp
  | cons p t ih =>
      rw [List.map_cons, List.foldl_cons]
      rw [show JSNum.add (JSNum.num s) (mkAnalytics p).clicks =
          JSNum.num (s + p.2.1) from rfl]
      rw [ih, List.map_cons, List.sum_cons]
      exact congrArg JSNum.num (by ring)

lemma totalImpressions_map (l : List (ℚ × ℚ × ℚ)) :
    totalImpressions (l.map mkAnalytics) = JSNum.num ((l.map fun t => t.1).sum) := by
  simpa using foldl_impressions l 0

lemma totalClicks_map (l : List (ℚ × ℚ × ℚ)) :
    totalClicks (l.map mkAnalytics) = JSNum.num ((l.map fun t => t.2.1).sum) := by
  simpa using foldl_clicks l 0

/-- C10: for every list of campaigns, getDashboardStats computes
overallCTR as the pooled ratio — total clicks over total impressions times
100 when the summed impressions are positive, and 0 otherwise — and this
is not the average of the per-campaign ctr values, as the two-campaign
portfolio (100 impressions, 50 clicks, ctr 50) and (1000 impressions, 10
clicks, ctr 1) shows: pooled 60/11 versus average 51/2. -/
theorem overallCTR_pooled_not_average :
    (∀ l : List (ℚ × ℚ × ℚ),
      overallCTR (l.map mkAnalytics) = JSNum.num (pooledCTRSpec l)) ∧
    overallCTR (List.map mkAnalytics [(100, 50, 50), (1000, 10, 1)]) ≠
      JSNum.num (averageCTRSpec [(100, 50, 50), (1000, 10, 1)]) := by
  have hpool : ∀ l : List (ℚ × ℚ × ℚ),
      overallCTR (l.map mkAnalytics) = JSNum.num (pooledCTRSpec l) := by
    intro l
    rw [overallCTR, totalImpressions_map, totalClicks_map, pooledCTRSpec]
    by_cases h : 0 < (l.map fun t => t.1).sum
    · simp [JSNum.gt, JSNum.div, JSNum.mul, h]
    · simp [JSNum.gt, JSNum.div, JSNum.mul, h]
  refine ⟨hpool, ?_⟩
  rw [hpool]
  norm_num [pooledCTRSpec, averageCTRSpec]

end AdvertiseMedia
